import Mathlib

/-!
Verification development for the Drowsy-Visiom drowsiness-detection system.

The definitions below are a shallow embedding of the Python sources:
`drowsiness_detector.py` (detection state machine, alert dispatcher,
session statistics), `email_notifier.py` (email channel) and `config.py`
(thresholds and cooldowns).  Frame images, faces and landmark geometry are
represented by the data that actually drives the control flow: each
detected face contributes one averaged EAR reading (a rational number),
and a frame is the list of per-face EAR readings in detection order (the
empty list is a frame with no detected face).  Wall-clock timestamps and
cooldowns are rationals.
-/

/-! ### Configuration constants (config.py) -/

/-- `config.EAR_THRESHOLD = 0.25`. -/
def EAR_THRESHOLD : ℚ := mkRat 1 4

/-- `config.DROWSINESS_FRAMES_THRESHOLD = 20`. -/
def DROWSINESS_FRAMES_THRESHOLD : ℕ := 20

/-- `config.AUDIO_ALERT_COOLDOWN = 5` (seconds). -/
def AUDIO_ALERT_COOLDOWN : ℚ := 5

/-- `config.EMAIL_ALERT_COOLDOWN = 60` (seconds). -/
def EMAIL_ALERT_COOLDOWN : ℚ := 60

/-! ### Detection state (DrowsinessDetector.__init__, lines 25–34) -/

/-- The mutable per-session detection state of `DrowsinessDetector`:
`eye_closed_frames` (the consecutive-low-EAR counter), `is_drowsy`, and the
`drowsy_detections` statistics counter.  The counter is a natural number:
the Python code only ever increments it by 1 or resets it to 0. -/
structure DetectionState where
  eye_closed_frames : ℕ
  is_drowsy : Bool
  drowsy_detections : ℕ
deriving DecidableEq

/-- Initial state set in `DrowsinessDetector.__init__`:
`is_drowsy = False`, `eye_closed_frames = 0`, `drowsy_detections = 0`. -/
def initDetectionState : DetectionState :=
  { eye_closed_frames := 0, is_drowsy := false, drowsy_detections := 0 }

/-- One iteration of the per-face body of `process_frame` (lines 147–164):
given the face's averaged EAR, update the shared state and report whether
`handle_drowsiness_detection` was invoked (a `DrowsyOnset` event).
`thr` is `EAR_THRESHOLD`, `fthr` is `DROWSINESS_FRAMES_THRESHOLD`. -/
def face_step (thr : ℚ) (fthr : ℕ) (ear : ℚ) (s : DetectionState) :
    DetectionState × Bool :=
  if ear < thr then
    let n := s.eye_closed_frames + 1
    if fthr ≤ n then
      if s.is_drowsy then
        ({ s with eye_closed_frames := n }, false)
      else
        ({ eye_closed_frames := n, is_drowsy := true,
           drowsy_detections := s.drowsy_detections + 1 }, true)
    else
      ({ s with eye_closed_frames := n }, false)
  else
    ({ s with eye_closed_frames := 0, is_drowsy := false }, false)

/-- The face loop of `process_frame` (lines 126–164): every detected face
is processed in order and each one's EAR updates the shared state.  The
second component counts the `DrowsyOnset` events fired during the frame.
A frame with zero detected faces is the empty list and leaves the state
untouched. -/
def process_frame (thr : ℚ) (fthr : ℕ) (faces : List ℚ) (s : DetectionState) :
    DetectionState × ℕ :=
  match faces with
  | [] => (s, 0)
  | ear :: rest =>
    let r := face_step thr fthr ear s
    let rec' := process_frame thr fthr rest r.1
    (rec'.1, (if r.2 then 1 else 0) + rec'.2)

/-- Processing a list of frames in sequence (the detection loop's repeated
calls to `process_frame` in `start_detection`).  Returns the final state
and the list of per-frame onset counts. -/
def run_frames (thr : ℚ) (fthr : ℕ) (frames : List (List ℚ))
    (s : DetectionState) : DetectionState × List ℕ :=
  match frames with
  | [] => (s, [])
  | f :: rest =>
    let r := process_frame thr fthr f s
    let rr := run_frames thr fthr rest r.1
    (rr.1, r.2 :: rr.2)

/-! ### Alert dispatcher (handle_drowsiness_detection, lines 183–203) -/

/-- The per-channel last-dispatch timestamps held by the detector
(`last_alert_time` for audio, `last_email_time` for email, both
initialized to 0 in `__init__`). -/
structure AlertTimes where
  last_alert_time : ℚ
  last_email_time : ℚ
deriving DecidableEq

/-- Result of one call to `handle_drowsiness_detection`: the updated
timestamps and whether each channel's side effect was launched. -/
structure DispatchResult where
  times : AlertTimes
  audio_fired : Bool
  email_fired : Bool
deriving DecidableEq

/-- `handle_drowsiness_detection` (lines 183–203): at time `now`, the audio
channel fires iff `now - last_alert_time > aCool` and then records `now`;
independently the email channel fires iff `now - last_email_time > eCool`
and then records `now`.  Timestamps are recorded at dispatch time (the
side effects run in background threads and are not awaited). -/
def handle_drowsiness_detection (aCool eCool : ℚ) (now : ℚ)
    (t : AlertTimes) : DispatchResult :=
  let audio : Bool := decide (aCool < now - t.last_alert_time)
  let t1 := if audio then { t with last_alert_time := now } else t
  let email : Bool := decide (eCool < now - t1.last_email_time)
  let t2 := if email then { t1 with last_email_time := now } else t1
  { times := t2, audio_fired := audio, email_fired := email }

/-! ### Session statistics (start_detection line 220, get_statistics 255–264) -/

/-- Detection state together with the `total_frames` counter, which the
`start_detection` loop increments once per frame read (line 220) before
calling `process_frame`. -/
structure SessionState where
  det : DetectionState
  total_frames : ℕ
deriving DecidableEq

/-- The `start_detection` loop body over a list of frames: increment
`total_frames`, then process the frame.  Returns the final session state
and the per-frame onset counts. -/
def session_loop (thr : ℚ) (fthr : ℕ) (frames : List (List ℚ))
    (ss : SessionState) : SessionState × List ℕ :=
  match frames with
  | [] => (ss, [])
  | f :: rest =>
    let r := process_frame thr fthr f ss.det
    let rr := session_loop thr fthr rest
      { det := r.1, total_frames := ss.total_frames + 1 }
    (rr.1, r.2 :: rr.2)

/-- The record returned by `get_statistics`. -/
structure Statistics where
  session_time : ℚ
  total_frames : ℕ
  drowsy_detections : ℕ
  current_status : String
  fps : ℚ
deriving DecidableEq

/-- `get_statistics` (lines 255–264): reports the counters and
`fps = total_frames / max(session_time, 1)`. -/
def get_statistics (ss : SessionState) (session_time : ℚ) : Statistics :=
  { session_time := session_time
  , total_frames := ss.total_frames
  , drowsy_detections := ss.det.drowsy_detections
  , current_status := if ss.det.is_drowsy then "Drowsy" else "Alert"
  , fps := (ss.total_frames : ℚ) / max session_time 1 }

/-! ### Email channel (email_notifier.py) -/

/-- The email credentials read from `config` in `EmailNotifier.__init__`;
an empty string is an absent (falsy) credential. -/
structure EmailConfig where
  sender_email : String
  sender_password : String
  receiver_email : String

/-- The guard `all([sender_email, sender_password, receiver_email])`
(line 78): true iff all three credentials are non-empty. -/
def email_configured (c : EmailConfig) : Bool :=
  (c.sender_email != "") && (c.sender_password != "") && (c.receiver_email != "")

/-- The body of `send_alert`'s `try` block (lines 76–94): return `False`
when unconfigured, otherwise construct the message and hand it to the
SMTP transport.  The fallible part (message construction plus SMTP
delivery) is abstracted by `delivery`: `Except.error` models a raised
exception, `Except.ok` a successful send. -/
def send_alert_attempt (c : EmailConfig) (delivery : Except String Unit) :
    Except String Bool :=
  if email_configured c = false then Except.ok false
  else
    match delivery with
    | Except.ok _ => Except.ok true
    | Except.error e => Except.error e

/-- `send_alert` (lines 74–98): the whole body is wrapped in
`try ... except Exception: return False`, so every exception raised inside
is caught and turned into the return value `False`. -/
def send_alert (c : EmailConfig) (delivery : Except String Unit) :
    Except String Bool :=
  match send_alert_attempt c delivery with
  | Except.ok b => Except.ok b
  | Except.error _ => Except.ok false

/-! ### Eye geometry (calculate_ear, lines 85–94)

The eye landmarks fed to `calculate_ear` are dlib's 68-point facial
landmark positions: integer pixel coordinates.  `scipy.spatial.distance.euclidean`
returns a `numpy.float64`, so `(A + B) / (2.0 * C)` is IEEE-754 double
division: a zero divisor produces `inf` (positive numerator) or `nan`
(zero numerator) together with a runtime warning — it does not raise an
exception.  We model the real-number content exactly (`ℝ`-valued
Euclidean distances) and the one division through an extended value type
`FVal` with the IEEE zero-divisor rule. -/

/-- A 2-D integer pixel point, as produced by `landmarks.part(i).x/.y` in
`extract_eye_landmarks`. -/
structure Pt where
  x : ℤ
  y : ℤ
deriving DecidableEq

/-- The squared Euclidean distance between two pixel points (an exact
integer). -/
def sqdist (p q : Pt) : ℤ :=
  (p.x - q.x) ^ 2 + (p.y - q.y) ^ 2

/-- `scipy.spatial.distance.euclidean`: the Euclidean distance between two
pixel points, as an exact real number. -/
noncomputable def euclidean (p q : Pt) : ℝ :=
  Real.sqrt ((sqdist p q : ℤ) : ℝ)

/-- A 6-point eye landmark set, index-significant as in the 68-point
scheme: corners at 0 and 3, upper lid at 1–2, lower lid at 4–5. -/
structure EyeLandmarks where
  p0 : Pt
  p1 : Pt
  p2 : Pt
  p3 : Pt
  p4 : Pt
  p5 : Pt
deriving DecidableEq

/-- An IEEE-style extended value: a finite real, an infinity, or NaN. -/
inductive FVal where
  | fin (x : ℝ)
  | inf
  | ninf
  | nan

/-- IEEE-754 (numpy float64) division restricted to exact operands: a zero
divisor yields `nan` when the numerator is zero, `±inf` otherwise; it
never raises. -/
noncomputable def fdiv (x y : ℝ) : FVal :=
  if y = 0 then
    (if x = 0 then FVal.nan else if 0 < x then FVal.inf else FVal.ninf)
  else FVal.fin (x / y)

/-- The IEEE `<` comparison of an extended value against a finite
threshold: comparisons against `nan` are false, `inf < t` is false,
`ninf < t` is true. -/
def FVal.flt (v : FVal) (t : ℝ) : Prop :=
  match v with
  | fin x => x < t
  | inf => False
  | ninf => True
  | nan => False

/-- `calculate_ear` (lines 85–94): `A = dist(p1,p5)`, `B = dist(p2,p4)`,
`C = dist(p0,p3)`, result `(A + B) / (2·C)`. -/
noncomputable def calculate_ear (e : EyeLandmarks) : FVal :=
  fdiv (euclidean e.p1 e.p5 + euclidean e.p2 e.p4)
    (2 * euclidean e.p0 e.p3)

/-! ### Helper lemmas: geometry -/

theorem sqdist_nonneg (p q : Pt) : 0 ≤ sqdist p q :=
  add_nonneg (sq_nonneg _) (sq_nonneg _)

theorem sqdist_eq_zero_iff (p q : Pt) : sqdist p q = 0 ↔ p = q := by
  unfold sqdist
  constructor
  · intro h
    have hx2 : (p.x - q.x) ^ 2 = 0 := by
      nlinarith [sq_nonneg (p.x - q.x), sq_nonneg (p.y - q.y)]
    have hy2 : (p.y - q.y) ^ 2 = 0 := by
      nlinarith [sq_nonneg (p.x - q.x), sq_nonneg (p.y - q.y)]
    have hx : p.x - q.x = 0 := by
      exact pow_eq_zero_iff (two_ne_zero) |>.1 hx2
    have hy : p.y - q.y = 0 := by
      exact pow_eq_zero_iff (two_ne_zero) |>.1 hy2
    have hx' : p.x = q.x := by omega
    have hy' : p.y = q.y := by omega
    cases p; cases q
    simp_all
  · intro h
    subst h
    ring

theorem euclidean_nonneg (p q : Pt) : 0 ≤ euclidean p q :=
  Real.sqrt_nonneg _

theorem euclidean_eq_zero_iff (p q : Pt) : euclidean p q = 0 ↔ p = q := by
  unfold euclidean
  rw [Real.sqrt_eq_zero (by exact_mod_cast sqdist_nonneg p q)]
  rw [show ((sqdist p q : ℤ) : ℝ) = 0 ↔ sqdist p q = 0 by exact_mod_cast Iff.rfl]
  exact sqdist_eq_zero_iff p q

theorem euclidean_pos_of_ne {p q : Pt} (h : p ≠ q) : 0 < euclidean p q := by
  rcases lt_or_eq_of_le (euclidean_nonneg p q) with hlt | heq
  · exact hlt
  · exact absurd ((euclidean_eq_zero_iff p q).1 heq.symm) h

/-! ### Helper lemmas: per-face step -/

/-- `drowsy_detections` changes by exactly the onset indicator. -/
theorem face_step_det (thr : ℚ) (fthr : ℕ) (e : ℚ) (s : DetectionState) :
    (face_step thr fthr e s).1.drowsy_detections =
      s.drowsy_detections + (if (face_step thr fthr e s).2 then 1 else 0) := by
  simp only [face_step]
  split_ifs <;> simp_all

/-- The onset fires exactly at an Alert→Drowsy transition. -/
theorem face_step_fired_iff (thr : ℚ) (fthr : ℕ) (e : ℚ) (s : DetectionState) :
    (face_step thr fthr e s).2 = true ↔
      s.is_drowsy = false ∧ (face_step thr fthr e s).1.is_drowsy = true := by
  cases hd : s.is_drowsy with
  | true =>
    simp only [face_step, hd]
    split_ifs <;> simp
  | false =>
    simp only [face_step, hd]
    split_ifs <;> simp

/-- While already drowsy, a below-threshold reading only increments the
counter and fires nothing. -/
theorem face_step_drowsy_low (thr : ℚ) (fthr : ℕ) (e : ℚ) (s : DetectionState)
    (hd : s.is_drowsy = true) (he : e < thr) :
    face_step thr fthr e s =
      ({ s with eye_closed_frames := s.eye_closed_frames + 1 }, false) := by
  simp only [face_step]
  split_ifs <;> simp_all

/-- If no onset fires from an Alert state, the state stays Alert. -/
theorem face_step_stays_alert (thr : ℚ) (fthr : ℕ) (e : ℚ) (s : DetectionState)
    (hd : s.is_drowsy = false) (hf : (face_step thr fthr e s).2 = false) :
    (face_step thr fthr e s).1.is_drowsy = false := by
  by_contra h
  have := (face_step_fired_iff thr fthr e s).2 ⟨hd, by simpa using h⟩
  simp [this] at hf

/-- The core invariant `is_drowsy → fthr ≤ eye_closed_frames` is preserved
by each per-face step. -/
theorem face_step_inv (thr : ℚ) (fthr : ℕ) (e : ℚ) (s : DetectionState)
    (h : s.is_drowsy = true → fthr ≤ s.eye_closed_frames) :
    (face_step thr fthr e s).1.is_drowsy = true →
      fthr ≤ (face_step thr fthr e s).1.eye_closed_frames := by
  simp only [face_step]
  split_ifs with h1 h2 h3 <;> intro hd <;> simp_all
  omega

/-! ### Helper lemmas: within-frame face loop -/

theorem process_frame_det (thr : ℚ) (fthr : ℕ) (l : List ℚ) (s : DetectionState) :
    (process_frame thr fthr l s).1.drowsy_detections =
      s.drowsy_detections + (process_frame thr fthr l s).2 := by
  induction l generalizing s with
  | nil => simp [process_frame]
  | cons e rest ih =>
    simp only [process_frame]
    rw [ih, face_step_det thr fthr e s]
    split_ifs <;> omega

theorem process_frame_inv (thr : ℚ) (fthr : ℕ) (l : List ℚ) (s : DetectionState)
    (h : s.is_drowsy = true → fthr ≤ s.eye_closed_frames) :
    (process_frame thr fthr l s).1.is_drowsy = true →
      fthr ≤ (process_frame thr fthr l s).1.eye_closed_frames := by
  induction l generalizing s with
  | nil => simpa [process_frame] using h
  | cons e rest ih =>
    simp only [process_frame]
    exact ih _ (face_step_inv thr fthr e s h)

/-- From a Drowsy state, a run of below-threshold readings fires no onset
and stays Drowsy. -/
theorem process_frame_drowsy_low (thr : ℚ) (fthr : ℕ) (l : List ℚ)
    (s : DetectionState) (hd : s.is_drowsy = true) (hl : ∀ e ∈ l, e < thr) :
    (process_frame thr fthr l s).2 = 0 ∧
      (process_frame thr fthr l s).1.is_drowsy = true := by
  induction l generalizing s with
  | nil => simpa [process_frame] using hd
  | cons e rest ih =>
    have he : e < thr := hl e (List.mem_cons_self e rest)
    simp only [process_frame, face_step_drowsy_low thr fthr e s hd he]
    have := ih { s with eye_closed_frames := s.eye_closed_frames + 1 } hd
      (fun x hx => hl x (List.mem_cons_of_mem e hx))
    simpa using this

/-- At most one onset during any run of below-threshold readings. -/
theorem process_frame_low_le_one (thr : ℚ) (fthr : ℕ) (l : List ℚ)
    (s : DetectionState) (hl : ∀ e ∈ l, e < thr) :
    (process_frame thr fthr l s).2 ≤ 1 := by
  induction l generalizing s with
  | nil => simp [process_frame]
  | cons e rest ih =>
    simp only [process_frame]
    cases hdrowsy : s.is_drowsy with
    | false =>
      cases hf : (face_step thr fthr e s).2 with
      | false =>
        have := ih (face_step thr fthr e s).1
          (fun x hx => hl x (List.mem_cons_of_mem e hx))
        simpa [hf] using this
      | true =>
        have hnew : (face_step thr fthr e s).1.is_drowsy = true :=
          ((face_step_fired_iff thr fthr e s).1 hf).2
        have := (process_frame_drowsy_low thr fthr rest (face_step thr fthr e s).1
          hnew (fun x hx => hl x (List.mem_cons_of_mem e hx))).1
        simp [hf, this]
    | true =>
      have he : e < thr := hl e (List.mem_cons_self e rest)
      rw [face_step_drowsy_low thr fthr e s hdrowsy he]
      have := (process_frame_drowsy_low thr fthr rest
        { s with eye_closed_frames := s.eye_closed_frames + 1 } hdrowsy
        (fun x hx => hl x (List.mem_cons_of_mem e hx))).1
      simp [this]

/-- Splitting the face loop across an append: every face updates the
shared state in sequence. -/
theorem process_frame_append (thr : ℚ) (fthr : ℕ) (a b : List ℚ)
    (s : DetectionState) :
    process_frame thr fthr (a ++ b) s =
      ((process_frame thr fthr b (process_frame thr fthr a s).1).1,
       (process_frame thr fthr a s).2 +
         (process_frame thr fthr b (process_frame thr fthr a s).1).2) := by
  induction a generalizing s with
  | nil => simp [process_frame]
  | cons e rest ih =>
    rw [List.cons_append]
    simp only [process_frame]
    rw [ih]
    simp [Nat.add_assoc]

/-! ### Helper lemmas: frame sequences -/

theorem run_frames_det (thr : ℚ) (fthr : ℕ) (fr : List (List ℚ))
    (s : DetectionState) :
    (run_frames thr fthr fr s).1.drowsy_detections =
      s.drowsy_detections + ((run_frames thr fthr fr s).2).sum := by
  induction fr generalizing s with
  | nil => simp [run_frames]
  | cons f rest ih =>
    simp only [run_frames, List.sum_cons]
    rw [ih, process_frame_det thr fthr f s]
    omega

theorem run_frames_inv (thr : ℚ) (fthr : ℕ) (fr : List (List ℚ))
    (s : DetectionState)
    (h : s.is_drowsy = true → fthr ≤ s.eye_closed_frames) :
    (run_frames thr fthr fr s).1.is_drowsy = true →
      fthr ≤ (run_frames thr fthr fr s).1.eye_closed_frames := by
  induction fr generalizing s with
  | nil => simpa [run_frames] using h
  | cons f rest ih =>
    simp only [run_frames]
    exact ih _ (process_frame_inv thr fthr f s h)

theorem run_frames_append (thr : ℚ) (fthr : ℕ) (a b : List (List ℚ))
    (s : DetectionState) :
    run_frames thr fthr (a ++ b) s =
      ((run_frames thr fthr b (run_frames thr fthr a s).1).1,
       (run_frames thr fthr a s).2 ++
         (run_frames thr fthr b (run_frames thr fthr a s).1).2) := by
  induction a generalizing s with
  | nil => simp [run_frames]
  | cons f rest ih =>
    rw [List.cons_append]
    simp only [run_frames]
    rw [ih]
    simp

/-- From a Drowsy state, single-face below-threshold frames fire no
further onsets and stay Drowsy. -/
theorem run_frames_drowsy_low (thr : ℚ) (fthr : ℕ) (lows : List ℚ)
    (s : DetectionState) (hd : s.is_drowsy = true)
    (hl : ∀ e ∈ lows, e < thr) :
    ((run_frames thr fthr (lows.map (fun e => [e])) s).2).sum = 0 ∧
      (run_frames thr fthr (lows.map (fun e => [e])) s).1.is_drowsy = true := by
  induction lows generalizing s with
  | nil => simpa [run_frames] using hd
  | cons e rest ih =>
    have he : e < thr := hl e (List.mem_cons_self e rest)
    simp only [List.map_cons, run_frames, List.sum_cons]
    have hframe : process_frame thr fthr [e] s =
        ({ s with eye_closed_frames := s.eye_closed_frames + 1 }, 0) := by
      simp [process_frame, face_step_drowsy_low thr fthr e s hd he]
    rw [hframe]
    have := ih { s with eye_closed_frames := s.eye_closed_frames + 1 } hd
      (fun x hx => hl x (List.mem_cons_of_mem e hx))
    simpa using this

/-! ### Helper lemmas: session loop -/

theorem session_loop_char (thr : ℚ) (fthr : ℕ) (fr : List (List ℚ))
    (ss : SessionState) :
    session_loop thr fthr fr ss =
      ({ det := (run_frames thr fthr fr ss.det).1,
         total_frames := ss.total_frames + fr.length },
       (run_frames thr fthr fr ss.det).2) := by
  induction fr generalizing ss with
  | nil => simp [session_loop, run_frames]
  | cons f rest ih =>
    simp only [session_loop, run_frames, List.length_cons, ih]
    simp only [Prod.mk.injEq, SessionState.mk.injEq, and_true, true_and]
    omega

/-- Single-face frames behave exactly like the flat sequence of their
readings: the frame loop applies `face_step` to each face's EAR in turn. -/
theorem run_frames_singletons (thr : ℚ) (fthr : ℕ) (lows : List ℚ)
    (s : DetectionState) :
    (run_frames thr fthr (lows.map (fun e => [e])) s).1 =
      (process_frame thr fthr lows s).1 ∧
    ((run_frames thr fthr (lows.map (fun e => [e])) s).2).sum =
      (process_frame thr fthr lows s).2 := by
  induction lows generalizing s with
  | nil => simp [run_frames, process_frame]
  | cons e rest ih =>
    simp only [List.map_cons, run_frames, List.sum_cons, process_frame]
    have h1 := (ih (face_step thr fthr e s).1).1
    have h2 := (ih (face_step thr fthr e s).1).2
    constructor
    · simpa [process_frame] using h1
    · simp only [process_frame] at *
      omega

/-! ### The claims -/

/-- C1: with `EAR_THRESHOLD = 1/4` and `FRAMES_THRESHOLD = 3`, the
per-frame EAR sequence [0.30, 0.20, 0.18, 0.19, 0.30] (one face per
frame) from the initial Alert state emits exactly one DrowsyOnset event,
fired while processing the 4th frame — exactly the frame at which the
counter first reaches the threshold (it is 3 there, with the state turned
Drowsy) — and the state is back to Alert with a zero counter after the
5th frame; in general, extending any below-threshold run past the point
where the state became Drowsy fires no additional onset events. -/
theorem C1_onset_scenario :
    (run_frames (mkRat 1 4) 3
      [[mkRat 3 10], [mkRat 2 10], [mkRat 18 100], [mkRat 19 100], [mkRat 3 10]]
      initDetectionState).2 = [0, 0, 0, 1, 0] ∧
    (run_frames (mkRat 1 4) 3
      [[mkRat 3 10], [mkRat 2 10], [mkRat 18 100], [mkRat 19 100], [mkRat 3 10]]
      initDetectionState).1 =
      { eye_closed_frames := 0, is_drowsy := false, drowsy_detections := 1 } ∧
    (run_frames (mkRat 1 4) 3
      [[mkRat 3 10], [mkRat 2 10], [mkRat 18 100], [mkRat 19 100]]
      initDetectionState).1 =
      { eye_closed_frames := 3, is_drowsy := true, drowsy_detections := 1 } ∧
    (∀ (thr : ℚ) (fthr : ℕ) (s : DetectionState) (lows : List ℚ),
      s.is_drowsy = true → (∀ e ∈ lows, e < thr) →
      ((run_frames thr fthr (lows.map (fun e => [e])) s).2).sum = 0) := by
  refine ⟨by decide, by decide, by decide, ?_⟩
  intro thr fthr s lows hd hl
  exact (run_frames_drowsy_low thr fthr lows s hd hl).1

/-- Witness for C1: the state reached after the first four frames of the
scenario is Drowsy, and extending the run by two more below-threshold
frames fires no further onset. -/
theorem C1_onset_scenario_witness :
    ({ eye_closed_frames := 3, is_drowsy := true, drowsy_detections := 1 } :
        DetectionState).is_drowsy = true ∧
    ((run_frames (mkRat 1 4) 3 ([mkRat 19 100, mkRat 18 100].map (fun e => [e]))
        { eye_closed_frames := 3, is_drowsy := true, drowsy_detections := 1 }).2).sum
      = 0 :=
  ⟨by decide,
   C1_onset_scenario.2.2.2 (mkRat 1 4) 3
     { eye_closed_frames := 3, is_drowsy := true, drowsy_detections := 1 }
     [mkRat 19 100, mkRat 18 100] (by decide) (by decide)⟩

/-- C2: a frame with zero detected faces leaves the detection state
completely unchanged and emits no event, and inserting such a frame into
the middle of any frame sequence changes neither the final state nor the
total number of onsets. -/
theorem C2_no_face_frame (thr : ℚ) (fthr : ℕ) (s : DetectionState)
    (front back : List (List ℚ)) :
    process_frame thr fthr [] s = (s, 0) ∧
    (run_frames thr fthr (front ++ [[]] ++ back) s).1 =
      (run_frames thr fthr (front ++ back) s).1 ∧
    ((run_frames thr fthr (front ++ [[]] ++ back) s).2).sum =
      ((run_frames thr fthr (front ++ back) s).2).sum := by
  refine ⟨rfl, ?_, ?_⟩
  · rw [List.append_assoc, run_frames_append, run_frames_append,
      run_frames_append]
    simp [run_frames, process_frame]
  · rw [List.append_assoc, run_frames_append, run_frames_append,
      run_frames_append]
    simp [run_frames, process_frame, List.sum_append]

/-- C3: on each handled onset at time `now`, the audio channel fires iff
`now - last_alert_time > cooldown` and the email channel independently
fires iff `now - last_email_time > cooldown` (each against its own
original timestamp), with the fired channel's timestamp set to `now` at
dispatch time; concretely, with a 5 s audio cooldown and a 60 s email
cooldown, onsets at times 100 and 110 fire audio both times but email
only the first time. -/
theorem C3_cooldown_dispatch (aCool eCool now : ℚ) (t : AlertTimes) :
    ((handle_drowsiness_detection aCool eCool now t).audio_fired = true ↔
      aCool < now - t.last_alert_time) ∧
    ((handle_drowsiness_detection aCool eCool now t).email_fired = true ↔
      eCool < now - t.last_email_time) ∧
    (handle_drowsiness_detection aCool eCool now t).times.last_alert_time =
      (if aCool < now - t.last_alert_time then now else t.last_alert_time) ∧
    (handle_drowsiness_detection aCool eCool now t).times.last_email_time =
      (if eCool < now - t.last_email_time then now else t.last_email_time) ∧
    (handle_drowsiness_detection 5 60 100 ⟨0, 0⟩).audio_fired = true ∧
    (handle_drowsiness_detection 5 60 100 ⟨0, 0⟩).email_fired = true ∧
    (handle_drowsiness_detection 5 60 110
      (handle_drowsiness_detection 5 60 100 ⟨0, 0⟩).times).audio_fired = true ∧
    (handle_drowsiness_detection 5 60 110
      (handle_drowsiness_detection 5 60 100 ⟨0, 0⟩).times).email_fired = false := by
  refine ⟨?_, ?_, ?_, ?_, ?_, ?_, ?_, ?_⟩
  · simp [handle_drowsiness_detection]
  · simp only [handle_drowsiness_detection, decide_eq_true_eq]
    split_ifs <;> simp
  · simp only [handle_drowsiness_detection, decide_eq_true_eq]
    split_ifs <;> simp_all
  · simp only [handle_drowsiness_detection, decide_eq_true_eq]
    split_ifs <;> simp_all
  · simp only [handle_drowsiness_detection]
    norm_num
  · simp only [handle_drowsiness_detection]
    norm_num
  · simp only [handle_drowsiness_detection]
    norm_num
  · simp only [handle_drowsiness_detection]
    norm_num

/-- C4: on a degenerate landmark set with coincident corner points,
`calculate_ear` does not crash (numpy float64 division by zero yields
`inf`, or `nan` for a zero numerator, with a warning rather than an
exception) and the resulting reading never compares below any threshold,
so it can never trigger the drowsiness branch. -/
theorem C4_degenerate_geometry (e : EyeLandmarks) (h : e.p0 = e.p3) (t : ℝ) :
    (calculate_ear e = FVal.inf ∨ calculate_ear e = FVal.nan) ∧
    ¬ (calculate_ear e).flt t := by
  have hC : euclidean e.p0 e.p3 = 0 := by
    rw [h]; exact (euclidean_eq_zero_iff _ _).2 rfl
  have hA := euclidean_nonneg e.p1 e.p5
  have hB := euclidean_nonneg e.p2 e.p4
  unfold calculate_ear fdiv
  rw [hC, mul_zero]
  rcases eq_or_lt_of_le (add_nonneg hA hB) with hz | hp
  · rw [if_pos rfl, if_pos hz.symm]
    exact ⟨Or.inr rfl, id⟩
  · rw [if_pos rfl, if_neg (by linarith), if_pos hp]
    exact ⟨Or.inl rfl, id⟩

/-- A fully degenerate eye landmark set: all six points coincide. -/
def degenerate_eye : EyeLandmarks :=
  ⟨⟨0, 0⟩, ⟨0, 1⟩, ⟨0, 1⟩, ⟨0, 0⟩, ⟨0, -1⟩, ⟨0, -1⟩⟩

/-- Witness for C4: a landmark set whose corners coincide produces a
reading that does not compare below the 0.25 threshold. -/
theorem C4_degenerate_geometry_witness :
    degenerate_eye.p0 = degenerate_eye.p3 ∧
    ¬ (calculate_ear degenerate_eye).flt ((1 : ℝ) / 4) :=
  ⟨rfl, (C4_degenerate_geometry degenerate_eye rfl ((1 : ℝ) / 4)).2⟩

/-- C5: every state reachable from the initial session state satisfies
`is_drowsy = true → FRAMES_THRESHOLD ≤ eye_closed_frames`; the counter is
a natural number, hence never negative; and any continuous run of
below-threshold single-face frames fires at most one onset, from any
starting state. -/
theorem C5_reachable_invariant (thr : ℚ) (fthr : ℕ) (frames : List (List ℚ)) :
    ((run_frames thr fthr frames initDetectionState).1.is_drowsy = true →
      fthr ≤ (run_frames thr fthr frames initDetectionState).1.eye_closed_frames) ∧
    0 ≤ (run_frames thr fthr frames initDetectionState).1.eye_closed_frames ∧
    (∀ (s : DetectionState) (lows : List ℚ), (∀ e ∈ lows, e < thr) →
      ((run_frames thr fthr (lows.map (fun e => [e])) s).2).sum ≤ 1) := by
  refine ⟨?_, Nat.zero_le _, ?_⟩
  · exact run_frames_inv thr fthr frames initDetectionState
      (fun hd => by simp [initDetectionState] at hd)
  · intro s lows hl
    rw [(run_frames_singletons thr fthr lows s).2]
    exact process_frame_low_le_one thr fthr lows s hl

/-- Witness for C5: after three below-threshold frames at threshold 3 the
state is Drowsy and the invariant yields a counter of at least 3; a
four-frame below-threshold run from the initial state fires at most one
onset. -/
theorem C5_reachable_invariant_witness :
    (run_frames (mkRat 1 4) 3 [[mkRat 1 5], [mkRat 1 5], [mkRat 1 5]]
      initDetectionState).1.is_drowsy = true ∧
    3 ≤ (run_frames (mkRat 1 4) 3 [[mkRat 1 5], [mkRat 1 5], [mkRat 1 5]]
      initDetectionState).1.eye_closed_frames ∧
    ((run_frames (mkRat 1 4) 3
      ([mkRat 1 5, mkRat 1 5, mkRat 1 5, mkRat 1 5].map (fun e => [e]))
      initDetectionState).2).sum ≤ 1 :=
  ⟨by decide,
   (C5_reachable_invariant (mkRat 1 4) 3
     [[mkRat 1 5], [mkRat 1 5], [mkRat 1 5]]).1 (by decide),
   (C5_reachable_invariant (mkRat 1 4) 3 []).2.2 initDetectionState
     [mkRat 1 5, mkRat 1 5, mkRat 1 5, mkRat 1 5] (by decide)⟩

/-- C6: on any landmark set with distinct corner points, `calculate_ear`
returns exactly the finite value `(A + B) / (2·C)` with `A = dist(p1,p5)`,
`B = dist(p2,p4)`, `C = dist(p0,p3)` Euclidean distances, and that value
is non-negative; the computation is a pure function (no side effects in
the embedding). -/
theorem C6_computeEAR_formula (e : EyeLandmarks) (h : e.p0 ≠ e.p3) :
    calculate_ear e =
      FVal.fin ((euclidean e.p1 e.p5 + euclidean e.p2 e.p4) /
        (2 * euclidean e.p0 e.p3)) ∧
    0 ≤ (euclidean e.p1 e.p5 + euclidean e.p2 e.p4) /
        (2 * euclidean e.p0 e.p3) := by
  have hC : 0 < euclidean e.p0 e.p3 := euclidean_pos_of_ne h
  constructor
  · unfold calculate_ear fdiv
    rw [if_neg (mul_pos two_pos hC).ne']
  · exact div_nonneg
      (add_nonneg (euclidean_nonneg _ _) (euclidean_nonneg _ _))
      (mul_pos two_pos hC).le

/-- A non-degenerate eye landmark set with distinct corner points. -/
def sample_eye : EyeLandmarks :=
  ⟨⟨0, 0⟩, ⟨1, 2⟩, ⟨2, 1⟩, ⟨3, 0⟩, ⟨2, -1⟩, ⟨1, -2⟩⟩

/-- Witness for C6: a concrete landmark set with distinct corners yields
the finite non-negative EAR value. -/
theorem C6_computeEAR_formula_witness :
    sample_eye.p0 ≠ sample_eye.p3 ∧
    (calculate_ear sample_eye =
      FVal.fin ((euclidean sample_eye.p1 sample_eye.p5 +
          euclidean sample_eye.p2 sample_eye.p4) /
        (2 * euclidean sample_eye.p0 sample_eye.p3)) ∧
    0 ≤ (euclidean sample_eye.p1 sample_eye.p5 +
          euclidean sample_eye.p2 sample_eye.p4) /
        (2 * euclidean sample_eye.p0 sample_eye.p3)) :=
  ⟨by decide, C6_computeEAR_formula sample_eye (by decide)⟩

/-- C7 counterexample: from the reachable state after two below-threshold
frames (counter = 2, threshold 3), the two-face frame [0.30, 0.20] yields
counter 1 and an Alert state, while processing only the last face's EAR
0.20 yields counter 3, a Drowsy state and an onset — so the resulting
shared state does not equal the state from the last-processed face alone. -/
theorem C7_last_face_counterexample :
    (process_frame (mkRat 1 4) 3 [mkRat 3 10, mkRat 1 5]
        (run_frames (mkRat 1 4) 3 [[mkRat 1 5], [mkRat 1 5]] initDetectionState).1).1 ≠
    (process_frame (mkRat 1 4) 3 [mkRat 1 5]
        (run_frames (mkRat 1 4) 3 [[mkRat 1 5], [mkRat 1 5]] initDetectionState).1).1 := by
  decide

/-- C7 (amended): in a multi-face frame every detected face's EAR drives
the shared detection state in sequence: the frame's final state is the
last face's update applied to the state left by the earlier faces of the
same frame (not to the frame-initial state), and the frame's onset count
adds the last face's onset to those of the earlier faces. -/
theorem C7_sequential_faces (thr : ℚ) (fthr : ℕ) (s : DetectionState)
    (faces : List ℚ) (lastEar : ℚ) :
    (process_frame thr fthr (faces ++ [lastEar]) s).1 =
      (face_step thr fthr lastEar (process_frame thr fthr faces s).1).1 ∧
    (process_frame thr fthr (faces ++ [lastEar]) s).2 =
      (process_frame thr fthr faces s).2 +
        (if (face_step thr fthr lastEar (process_frame thr fthr faces s).1).2
          then 1 else 0) := by
  rw [process_frame_append]
  constructor
  · rfl
  · simp [process_frame]

/-- C8: `send_alert` never propagates an exception to its caller: it
always returns a boolean; with any credential absent it returns `False`
(skipping the send), and any failure raised by message construction or
SMTP delivery is caught and also yields `False`. -/
theorem C8_send_alert_no_raise (c : EmailConfig) (delivery : Except String Unit) :
    (∃ b, send_alert c delivery = Except.ok b) ∧
    ((c.sender_email = "" ∨ c.sender_password = "" ∨ c.receiver_email = "") →
      send_alert c delivery = Except.ok false) ∧
    (∀ msg, delivery = Except.error msg →
      send_alert c delivery = Except.ok false) := by
  have hconf : (c.sender_email = "" ∨ c.sender_password = "" ∨
      c.receiver_email = "") → email_configured c = false := by
    intro h
    simp only [email_configured]
    rcases h with h | h | h <;> simp [h]
  refine ⟨?_, ?_, ?_⟩
  · unfold send_alert send_alert_attempt
    cases hc : email_configured c <;> cases delivery <;> simp
  · intro h
    unfold send_alert send_alert_attempt
    simp [hconf h]
  · intro msg hmsg
    subst hmsg
    unfold send_alert send_alert_attempt
    cases hc : email_configured c <;> simp

/-- Witness for C8: with an absent sender address the alert is skipped
with `False`; with full credentials a delivery failure is caught and also
yields `False`. -/
theorem C8_send_alert_no_raise_witness :
    (("" : String) = "" ∨ ("pw" : String) = "" ∨ ("r@x" : String) = "") ∧
    send_alert ⟨"", "pw", "r@x"⟩ (Except.error "boom") = Except.ok false ∧
    send_alert ⟨"a@x", "pw", "r@x"⟩ (Except.error "boom") = Except.ok false :=
  ⟨Or.inl rfl,
   (C8_send_alert_no_raise ⟨"", "pw", "r@x"⟩ (Except.error "boom")).2.1 (Or.inl rfl),
   (C8_send_alert_no_raise ⟨"a@x", "pw", "r@x"⟩ (Except.error "boom")).2.2 "boom" rfl⟩

/-- C9: after a session has processed `N` frames (each read increments
`total_frames`) recording `D = Σ onsets` detections, `get_statistics`
reports `total_frames = N` and `drowsy_detections = D` exactly, and
`fps = N / max(session_time, 1)` whose denominator is at least 1, so the
division is by a nonzero quantity even for sessions under one second. -/
theorem C9_statistics_report (thr : ℚ) (fthr : ℕ) (frames : List (List ℚ))
    (elapsed : ℚ) :
    (get_statistics (session_loop thr fthr frames ⟨initDetectionState, 0⟩).1
      elapsed).total_frames = frames.length ∧
    (get_statistics (session_loop thr fthr frames ⟨initDetectionState, 0⟩).1
      elapsed).drowsy_detections =
      ((session_loop thr fthr frames ⟨initDetectionState, 0⟩).2).sum ∧
    (get_statistics (session_loop thr fthr frames ⟨initDetectionState, 0⟩).1
      elapsed).fps = (frames.length : ℚ) / max elapsed 1 ∧
    (1 : ℚ) ≤ max elapsed 1 := by
  rw [session_loop_char]
  refine ⟨?_, ?_, ?_, le_max_right _ _⟩
  · simp [get_statistics]
  · have h := run_frames_det thr fthr frames initDetectionState
    simpa [get_statistics, initDetectionState] using h
  · simp [get_statistics]

/-- C10: `drowsy_detections` increases by exactly the onset indicator at
each per-face step, the onset fires exactly at an Alert→Drowsy
transition, and consequently at every reachable state the counter equals
the total number of onsets emitted since session start and is monotone
under processing further frames. -/
theorem C10_detection_counter (thr : ℚ) (fthr : ℕ) (s : DetectionState)
    (e : ℚ) (frames more : List (List ℚ)) :
    (face_step thr fthr e s).1.drowsy_detections =
      s.drowsy_detections + (if (face_step thr fthr e s).2 then 1 else 0) ∧
    ((face_step thr fthr e s).2 = true ↔
      s.is_drowsy = false ∧ (face_step thr fthr e s).1.is_drowsy = true) ∧
    (run_frames thr fthr frames initDetectionState).1.drowsy_detections =
      ((run_frames thr fthr frames initDetectionState).2).sum ∧
    (run_frames thr fthr frames initDetectionState).1.drowsy_detections ≤
      (run_frames thr fthr (frames ++ more) initDetectionState).1.drowsy_detections := by
  refine ⟨face_step_det thr fthr e s, face_step_fired_iff thr fthr e s, ?_, ?_⟩
  · have := run_frames_det thr fthr frames initDetectionState
    simpa [initDetectionState] using this
  · rw [run_frames_append]
    rw [run_frames_det thr fthr more (run_frames thr fthr frames initDetectionState).1]
    exact Nat.le_add_right _ _
